import Mathlib

/-!
Verification of the cv-analytics-webhook-receiver pipeline.

The repository is a single-endpoint webhook receiver: an HTTP handler reads a
signed JSON payload, a processor verifies an HMAC-SHA256 signature, validates
required fields of the embedded analytics record and upserts the record into a
document store keyed by the record's `requestId`.

This file shallowly embeds the Go source:
 - bytes are `Nat` values < 256, byte strings are `List Nat`;
 - machine words of the hash are `Nat` with explicit reduction `% 2^32`;
 - `crypto/sha256` and `crypto/hmac` (external standard-library collaborators
   of `HMACValidator.Validate`) are embedded concretely, following FIPS 180-4
   and RFC 2104, and checked against published test vectors;
 - the Firestore collection is an association list from document key to
   document, where `Doc(id).Set` replaces the entry at the key (set semantics);
 - the Realtime-Database variant's `Push` appends a child under a fresh
   auto-generated key, modelled by the next free index;
 - fallible Go functions returning `error` become `Except String`;
 - the handler is a pure function from the request data (rate-limit verdict,
   method, body-read result, signature header) to an instrumented result
   recording the HTTP status, response body, whether the body was read, the
   processor invocations and the storage writes.
-/

/-- Reduce a `Nat` to a 32-bit machine word, mirroring Go `uint32` overflow. -/
def w32 (n : Nat) : Nat := n % 4294967296

/-- Bitwise complement on a 32-bit word (Go `^x` on `uint32`). -/
def notW (x : Nat) : Nat := 4294967295 - w32 x

/-- Rotate a 32-bit word right by `n` bits (Go `bits.RotateLeft32(x, -n)`). -/
def rotr (n x : Nat) : Nat := w32 ((x >>> n) ||| (x <<< (32 - n)))

/-- SHA-256 small sigma 0: rotr 7 xor rotr 18 xor shr 3. -/
def ssig0 (x : Nat) : Nat := (rotr 7 x) ^^^ (rotr 18 x) ^^^ (x >>> 3)

/-- SHA-256 small sigma 1: rotr 17 xor rotr 19 xor shr 10. -/
def ssig1 (x : Nat) : Nat := (rotr 17 x) ^^^ (rotr 19 x) ^^^ (x >>> 10)

/-- SHA-256 big Sigma 0: rotr 2 xor rotr 13 xor rotr 22. -/
def bsig0 (x : Nat) : Nat := (rotr 2 x) ^^^ (rotr 13 x) ^^^ (rotr 22 x)

/-- SHA-256 big Sigma 1: rotr 6 xor rotr 11 xor rotr 25. -/
def bsig1 (x : Nat) : Nat := (rotr 6 x) ^^^ (rotr 11 x) ^^^ (rotr 25 x)

/-- SHA-256 choice function Ch(x,y,z). -/
def chF (x y z : Nat) : Nat := (x &&& y) ^^^ ((notW x) &&& z)

/-- SHA-256 majority function Maj(x,y,z). -/
def majF (x y z : Nat) : Nat := (x &&& y) ^^^ (x &&& z) ^^^ (y &&& z)

/-- The eight working variables of the SHA-256 compression function. -/
structure Hash8 where
  a : Nat
  b : Nat
  c : Nat
  d : Nat
  e : Nat
  f : Nat
  g : Nat
  h : Nat
deriving Repr, DecidableEq

/-- SHA-256 initial hash value (FIPS 180-4 section 5.3.3), in decimal. -/
def sha256H0 : Hash8 :=
  ⟨1779033703, 3144134277, 1013904242, 2773480762,
   1359893119, 2600822924, 528734635, 1541459225⟩

/-- SHA-256 round constants (FIPS 180-4 section 4.2.2), in decimal. -/
def sha256K : List Nat :=
  [1116352408, 1899447441, 3049323471, 3921009573, 961987163,
   1508970993, 2453635748, 2870763221, 3624381080, 310598401,
   607225278, 1426881987, 1925078388, 2162078206, 2614888103,
   3248222580, 3835390401, 4022224774, 264347078, 604807628,
   770255983, 1249150122, 1555081692, 1996064986, 2554220882,
   2821834349, 2952996808, 3210313671, 3336571891, 3584528711,
   113926993, 338241895, 666307205, 773529912, 1294757372,
   1396182291, 1695183700, 1986661051, 2177026350, 2456956037,
   2730485921, 2820302411, 3259730800, 3345764771, 3516065817,
   3600352804, 4094571909, 275423344, 430227734, 506948616,
   659060556, 883997877, 958139571, 1322822218, 1537002063,
   1747873779, 1955562222, 2024104815, 2227730452, 2361852424,
   2428436474, 2756734187, 3204031479, 3329325298]

/-- Big-endian serialisation of a 32-bit word into four bytes. -/
def wordBE (w : Nat) : List Nat :=
  [w / 16777216 % 256, w / 65536 % 256, w / 256 % 256, w % 256]

/-- Big-endian serialisation of a 64-bit length into eight bytes. -/
def be64 (n : Nat) : List Nat :=
  [n / 72057594037927936 % 256, n / 281474976710656 % 256,
   n / 1099511627776 % 256, n / 4294967296 % 256,
   n / 16777216 % 256, n / 65536 % 256, n / 256 % 256, n % 256]

/-- Assemble big-endian 32-bit words from a list of bytes. -/
def bytesToWords : List Nat → List Nat
  | b0 :: b1 :: b2 :: b3 :: rest =>
      (b0 * 16777216 + b1 * 65536 + b2 * 256 + b3) :: bytesToWords rest
  | _ => []

/-- SHA-256 padding: append `0x80`, zeros to 56 mod 64, and the bit length. -/
def padMessage (msg : List Nat) : List Nat :=
  msg ++ [128] ++ List.replicate ((119 - msg.length % 64) % 64) 0
      ++ be64 (msg.length * 8)

/-- Split a byte list into 64-byte blocks; the fuel argument bounds the
number of steps and is consumed structurally (one element per chunk at
least, so `l.length` fuel always suffices). -/
def chunks64Go : Nat → List Nat → List (List Nat)
  | 0, _ => []
  | _, [] => []
  | fuel + 1, l => l.take 64 :: chunks64Go fuel (l.drop 64)

/-- Split a byte list into 64-byte blocks. -/
def chunks64 (l : List Nat) : List (List Nat) := chunks64Go l.length l

/-- Extend the message schedule by one word (FIPS 180-4 section 6.2.2 step 1). -/
def scheduleStep (w : List Nat) : List Nat :=
  let n := w.length
  w ++ [w32 (ssig1 (w.getD (n - 2) 0) + w.getD (n - 7) 0
             + ssig0 (w.getD (n - 15) 0) + w.getD (n - 16) 0)]

/-- One round of the SHA-256 compression function. -/
def sha256Round (st : Hash8) (wk : Nat × Nat) : Hash8 :=
  let t1 := w32 (st.h + bsig1 st.e + chF st.e st.f st.g + wk.2 + wk.1)
  let t2 := w32 (bsig0 st.a + majF st.a st.b st.c)
  ⟨w32 (t1 + t2), st.a, st.b, st.c, w32 (st.d + t1), st.e, st.f, st.g⟩

/-- Process one 64-byte block: 64 rounds, then add into the chaining value. -/
def processBlock (st : Hash8) (block : List Nat) : Hash8 :=
  let ws := Nat.repeat scheduleStep 48 (bytesToWords block)
  let fin := (ws.zip sha256K).foldl sha256Round st
  ⟨w32 (st.a + fin.a), w32 (st.b + fin.b), w32 (st.c + fin.c), w32 (st.d + fin.d),
   w32 (st.e + fin.e), w32 (st.f + fin.f), w32 (st.g + fin.g), w32 (st.h + fin.h)⟩

/-- SHA-256 of a byte list, as its 32-byte digest (Go `crypto/sha256`). -/
def sha256 (msg : List Nat) : List Nat :=
  let fin := (chunks64 (padMessage msg)).foldl processBlock sha256H0
  wordBE fin.a ++ wordBE fin.b ++ wordBE fin.c ++ wordBE fin.d
    ++ wordBE fin.e ++ wordBE fin.f ++ wordBE fin.g ++ wordBE fin.h

/-- HMAC-SHA256 (RFC 2104), as produced by Go
`hmac.New(sha256.New, key)` followed by `Write(msg); Sum(nil)`:
keys longer than the 64-byte block are first hashed, the key is zero-padded to
the block size, and the digest is `H((key xor opad) ++ H((key xor ipad) ++ msg))`. -/
def hmacSha256 (key msg : List Nat) : List Nat :=
  let k0 := if 64 < key.length then sha256 key else key
  let kPad := k0 ++ List.replicate (64 - k0.length) 0
  let inner := sha256 ((kPad.map (fun b => b ^^^ 54)) ++ msg)
  sha256 ((kPad.map (fun b => b ^^^ 92)) ++ inner)

/-- Lowercase hexadecimal digit, as in Go `encoding/hex`'s table
"0123456789abcdef". -/
def hexDigit (n : Nat) : Char :=
  if n < 10 then Char.ofNat (48 + n) else Char.ofNat (87 + n)

/-- The characters of the lowercase hex encoding of a byte list. -/
def hexChars : List Nat → List Char
  | [] => []
  | b :: rest => hexDigit (b % 256 / 16) :: hexDigit (b % 16) :: hexChars rest

/-- Lowercase hex encoding of a byte list (Go `hex.EncodeToString`). -/
def hexEncode (bs : List Nat) : String := String.mk (hexChars bs)

/-- The persisted analytics unit (`AnalyticsRecord` in `function.go`). Go
`int`/`int64` fields become `Int`; no arithmetic is performed on them. -/
structure AnalyticsRecord where
  requestId : String
  query : String
  matchType : String
  matchScore : Int
  reasoning : String
  vectorMatches : Int
  sessionId : String
  week : String
  timestamp : Int
deriving Repr, DecidableEq

/-- The wire envelope (`WebhookPayload` in `function.go`). -/
structure WebhookPayload where
  eventType : String
  timestamp : Int
  data : AnalyticsRecord
deriving Repr, DecidableEq

/-- The HMAC signature validator (`HMACValidator` in `function.go`); the Go
struct stores the shared secret string, modelled by its bytes. -/
structure HMACValidator where
  secret : List Nat

/-- `HMACValidator.Validate` from `function.go`: compute
`hex.EncodeToString(hmac.Sum(...))` over the raw payload bytes and compare it
against the supplied signature with `hmac.Equal`. `hmac.Equal` is byte-slice
equality (computed in constant time, a timing property outside this model),
and byte-slice equality of UTF-8 encodings coincides with string equality. -/
def HMACValidator.Validate (v : HMACValidator) (payload : List Nat)
    (signature : String) : Except String Unit :=
  let expected := hexEncode (hmacSha256 v.secret payload)
  if signature = expected then Except.ok () else Except.error "invalid signature"

/-- `validateAnalyticsRecord` from `function.go`: require a non-empty
`requestId`, then a non-empty `query`, then a non-zero `timestamp`. -/
def validateAnalyticsRecord (record : AnalyticsRecord) : Except String Unit :=
  if record.requestId = "" then Except.error "requestId is required"
  else if record.query = "" then Except.error "query is required"
  else if record.timestamp = 0 then Except.error "timestamp is required"
  else Except.ok ()

/-- The webhook processor's injected collaborators (`WebhookService` in
`function.go`): a signature validator and an analytics writer. The writer's
only visible outcome at this layer is its error result (`none` = success);
the records handed to it are tracked in `WebhookService.Process`'s result.
The logger only emits log lines and is not modelled. -/
structure WebhookService where
  validate : List Nat → String → Except String Unit
  write : AnalyticsRecord → Option String

/-- `WebhookService.Process` from `function.go`: validate the signature, parse
the payload, validate the record, then write; short-circuit on the first
failure, wrapping each error with a stage-naming message. `unmarshal` stands
for the external standard-library collaborator `json.Unmarshal`. The second
component of the result is the list of records passed to the writer's
`Write`, in invocation order (a failing `Write` was still invoked). -/
def WebhookService.Process (s : WebhookService)
    (unmarshal : List Nat → Option WebhookPayload)
    (payload : List Nat) (signature : String) :
    Except String Unit × List AnalyticsRecord :=
  match s.validate payload signature with
  | Except.error e => (Except.error ("webhook validation failed: " ++ e), [])
  | Except.ok _ =>
    match unmarshal payload with
    | none => (Except.error "failed to parse webhook", [])
    | some wp =>
      match validateAnalyticsRecord wp.data with
      | Except.error e => (Except.error ("invalid analytics record: " ++ e), [])
      | Except.ok _ =>
        match s.write wp.data with
        | some e => (Except.error ("failed to store analytics: " ++ e), [wp.data])
        | none => (Except.ok (), [wp.data])

/-- A stored analytics document: the field map written by the repositories,
i.e. the record's nine fields plus the server-assigned `receivedAt`. -/
structure AnalyticsDoc where
  requestId : String
  query : String
  matchType : String
  matchScore : Int
  reasoning : String
  vectorMatches : Int
  sessionId : String
  week : String
  timestamp : Int
  receivedAt : Int
deriving Repr, DecidableEq

/-- The document map built by both repositories' `Write`: every record field
under its JSON name, plus `receivedAt` set to the current server time. -/
def analyticsDoc (record : AnalyticsRecord) (now : Int) : AnalyticsDoc :=
  ⟨record.requestId, record.query, record.matchType, record.matchScore,
   record.reasoning, record.vectorMatches, record.sessionId, record.week,
   record.timestamp, now⟩

/-- Firestore `Doc(key).Set(data)`: upsert into the collection, replacing the
document stored at `key` if present, else adding one — full overwrite, never
a merge of fields. The collection is an association list from document key to
document. -/
def setDoc : List (String × AnalyticsDoc) → String → AnalyticsDoc →
    List (String × AnalyticsDoc)
  | [], k, d => [(k, d)]
  | (k0, d0) :: rest, k, d =>
    if k0 = k then (k, d) :: rest else (k0, d0) :: setDoc rest k d

/-- `FirestoreRepository.Write` from `internal/repositories/firestore.go` and
`function.go`: build the field map with `receivedAt = time.Now().Unix()`
(the `now` argument) and `Set` it at document key `record.RequestID` in the
"analytics" collection (the `store` argument). -/
def FirestoreRepository.Write (store : List (String × AnalyticsDoc))
    (record : AnalyticsRecord) (now : Int) : List (String × AnalyticsDoc) :=
  setDoc store record.requestId (analyticsDoc record now)

/-- `FirebaseRepository.Write` from `internal/repositories/firebase.go`:
build the same field map with `receivedAt = time.Now().UnixMilli()` and
`Push` it under `analytics/live`; `Push` appends a new child under a fresh
auto-generated key, modelled by the next free index. -/
def FirebaseRepository.Write (children : List (Nat × AnalyticsDoc))
    (record : AnalyticsRecord) (nowMillis : Int) : List (Nat × AnalyticsDoc) :=
  children ++ [(children.length, analyticsDoc record nowMillis)]

/-- The documents a Firestore collection holds under a given key. -/
def docsForKey (store : List (String × AnalyticsDoc)) (k : String) :
    List (String × AnalyticsDoc) :=
  store.filter (fun p => decide (p.1 = k))

/-- The instrumented outcome of one `ServeHTTP` call: HTTP status and body,
whether the request body was read, the `(payload, signature)` arguments of
each processor invocation, and the records handed to the storage writer. -/
structure HandlerResult where
  status : Nat
  body : String
  bodyRead : Bool
  procCalls : List (List Nat × String)
  writes : List AnalyticsRecord
deriving Repr, DecidableEq

/-- `strings.TrimPrefix(signature, "sha256=")` as called in `function.go`:
drop the leading algorithm tag when present, else leave the value unchanged. -/
def trimSignatureTag (s : String) : String :=
  match s.data with
  | 's' :: 'h' :: 'a' :: '2' :: '5' :: '6' :: '=' :: rest => String.mk rest
  | _ => s

/-- The fixed success acknowledgment body written on HTTP 200. -/
def successBody : String := "\x7b\"success\":true,\"status\":\"ok\"\x7d"

/-- `WebhookHandler.ServeHTTP` from `function.go` (the rate-limited variant):
consult the rate limiter first, then reject non-POST methods, read the body,
require the `X-Webhook-Signature` header, strip the `sha256=` tag, and map
the processor outcome to 401 or 200. `allow` is the rate limiter's verdict,
`bodyResult` the outcome of `io.ReadAll(r.Body)`, `sigHeader` the header
value (`""` when absent). -/
def WebhookHandler.ServeHTTP
    (process : List Nat → String → Except String Unit × List AnalyticsRecord)
    (allow : Bool) (method : String)
    (bodyResult : Except String (List Nat)) (sigHeader : String) :
    HandlerResult :=
  if !allow then
    ⟨429, "Rate limit exceeded\n", false, [], []⟩
  else if method ≠ "POST" then
    ⟨405, "Method not allowed\n", false, [], []⟩
  else
    match bodyResult with
    | Except.error _ => ⟨400, "Failed to read body\n", true, [], []⟩
    | Except.ok body =>
      if sigHeader = "" then
        ⟨400, "Missing X-Webhook-Signature header\n", true, [], []⟩
      else
        let signature := trimSignatureTag sigHeader
        match process body signature with
        | (Except.error _, ws) =>
            ⟨401, "Failed to process webhook\n", true, [(body, signature)], ws⟩
        | (Except.ok _, ws) =>
            ⟨200, successBody, true, [(body, signature)], ws⟩

namespace Handlers

/-- `WebhookHandler.ServeHTTP` from `internal/handlers/webhook.go` (the
variant without a rate limiter): reject non-POST methods, read the body,
require the `X-Webhook-Signature` header, and pass the header value to the
processor unchanged — this variant performs no prefix stripping. -/
def WebhookHandler.ServeHTTP
    (process : List Nat → String → Except String Unit × List AnalyticsRecord)
    (method : String) (bodyResult : Except String (List Nat))
    (sigHeader : String) : HandlerResult :=
  if method ≠ "POST" then
    ⟨405, "Method not allowed\n", false, [], []⟩
  else
    match bodyResult with
    | Except.error _ => ⟨400, "Failed to read body\n", true, [], []⟩
    | Except.ok body =>
      if sigHeader = "" then
        ⟨400, "Missing X-Webhook-Signature header\n", true, [], []⟩
      else
        match process body sigHeader with
        | (Except.error _, ws) =>
            ⟨401, "Failed to process webhook\n", true, [(body, sigHeader)], ws⟩
        | (Except.ok _, ws) =>
            ⟨200, successBody, true, [(body, sigHeader)], ws⟩

end Handlers

/-- Consistency between a Firestore collection's document keys and the
`requestId` field stored inside each document. -/
def storeConsistent (store : List (String × AnalyticsDoc)) : Prop :=
  ∀ p ∈ store, (p.2).requestId = p.1

/-- A concrete well-formed analytics record, for witness instantiations. -/
def sampleRecord : AnalyticsRecord :=
  ⟨"req_1", "what is your experience", "vector", 87, "high cosine score", 3,
   "sess_789", "2026-W41", 1700000000⟩

/-- A concrete wire envelope around `sampleRecord`. -/
def samplePayload : WebhookPayload := ⟨"analytics_event", 1700000000, sampleRecord⟩

/-- A second record sharing `sampleRecord`'s `requestId` but with a different
payload, modelling a retried delivery. -/
def sampleRecord2 : AnalyticsRecord :=
  ⟨"req_1", "updated query", "semantic", 90, "second delivery", 4,
   "sess_790", "2026-W41", 1700000100⟩

set_option maxRecDepth 100000

/-- Sanity check against the FIPS test vector: SHA-256 of the empty message. -/
theorem sha256_empty_vector :
    hexEncode (sha256 []) =
      "e3b0c44298fc1c149afbf4c8996fb92427ae41e4649b934ca495991b7852b855" := by
  decide

/-- Sanity check against the FIPS test vector: SHA-256 of "abc". -/
theorem sha256_abc_vector :
    hexEncode (sha256 [97, 98, 99]) =
      "ba7816bf8f01cfea414140de5dae2223b00361a396177a9cb410ff61f20015ad" := by
  decide

/-- Sanity check against RFC 4231 test case 2: HMAC-SHA256 with key "Jefe" and
data "what do ya want for nothing?". -/
theorem hmacSha256_rfc4231_vector :
    hexEncode (hmacSha256 [74, 101, 102, 101]
      [119, 104, 97, 116, 32, 100, 111, 32, 121, 97, 32, 119, 97, 110, 116,
       32, 102, 111, 114, 32, 110, 111, 116, 104, 105, 110, 103, 63]) =
      "5bdcc146bf60754e6a042426089575c75a003f089d2739839dec58b964ec3843" := by
  decide

/-- A SHA-256 digest always has 32 bytes. -/
theorem sha256_length (msg : List Nat) : (sha256 msg).length = 32 := by
  simp [sha256, wordBE]

/-- An HMAC-SHA256 tag always has 32 bytes. -/
theorem hmacSha256_length (key msg : List Nat) :
    (hmacSha256 key msg).length = 32 := by
  simp [hmacSha256, sha256_length]

/-- Hex encoding yields two characters per byte. -/
theorem hexChars_length (bs : List Nat) : (hexChars bs).length = 2 * bs.length := by
  induction bs with
  | nil => simp [hexChars]
  | cons b rest ih => simp [hexChars, ih]; ring

/-- The hex string of a byte list has twice its length. -/
theorem hexEncode_length (bs : List Nat) :
    (hexEncode bs).length = 2 * bs.length := by
  simpa [hexEncode, String.length] using hexChars_length bs

/-- The expected signature computed by the validator is never the empty
string: it is 64 hex characters long. -/
theorem hexEncode_hmac_ne_empty (key msg : List Nat) :
    ("" : String) ≠ hexEncode (hmacSha256 key msg) := by
  intro h
  have hlen := congrArg String.length h
  rw [hexEncode_length, hmacSha256_length] at hlen
  simp [String.length] at hlen

/-- A record failing any of the three required-field checks is rejected by
`validateAnalyticsRecord` with some error. -/
theorem validateAnalyticsRecord_err_of_invalid (r : AnalyticsRecord)
    (h : r.requestId = "" ∨ r.query = "" ∨ r.timestamp = 0) :
    ∃ e, validateAnalyticsRecord r = Except.error e := by
  unfold validateAnalyticsRecord
  rcases h with h | h | h <;> simp [h] <;> split_ifs <;> exact ⟨_, rfl⟩

/-- A record passing the three required-field checks is accepted. -/
theorem validateAnalyticsRecord_ok_of_valid (r : AnalyticsRecord)
    (h1 : r.requestId ≠ "") (h2 : r.query ≠ "") (h3 : r.timestamp ≠ 0) :
    validateAnalyticsRecord r = Except.ok () := by
  simp [validateAnalyticsRecord, h1, h2, h3]

/-- The validator accepts the correctly computed signature. -/
theorem hmacValidator_accepts_expected (secret payload : List Nat) :
    HMACValidator.Validate ⟨secret⟩ payload
      (hexEncode (hmacSha256 secret payload)) = Except.ok () := by
  simp [HMACValidator.Validate]

/-- `Set` at a key into a collection holding at most one document under that
key leaves exactly the new document under it. -/
theorem docsForKey_setDoc (s : List (String × AnalyticsDoc)) (k : String)
    (d : AnalyticsDoc) (h : (docsForKey s k).length ≤ 1) :
    docsForKey (setDoc s k d) k = [(k, d)] := by
  induction s with
  | nil => simp [docsForKey, setDoc]
  | cons p rest ih =>
    obtain ⟨k0, d0⟩ := p
    by_cases hk : k0 = k
    · subst hk
      have hcons : docsForKey ((k0, d0) :: rest) k0 = (k0, d0) :: docsForKey rest k0 := by
        simp [docsForKey]
      rw [hcons] at h
      have hlen : (docsForKey rest k0).length = 0 := by
        simp only [List.length_cons] at h
        omega
      have hrest : docsForKey rest k0 = [] := List.length_eq_zero.mp hlen
      have hcons2 : docsForKey ((k0, d) :: rest) k0 = (k0, d) :: docsForKey rest k0 := by
        simp [docsForKey]
      simp only [setDoc, if_pos rfl, if_true]
      rw [hcons2, hrest]
    · have hcons : docsForKey ((k0, d0) :: rest) k = docsForKey rest k := by
        simp [docsForKey, hk]
      rw [hcons] at h
      have hcons2 : docsForKey ((k0, d0) :: setDoc rest k d) k
          = docsForKey (setDoc rest k d) k := by
        simp [docsForKey, hk]
      simp only [setDoc, if_neg hk]
      rw [hcons2]
      exact ih h

/-- Looking up a key right after `Set` at that key returns the new document. -/
theorem lookupDoc_setDoc (s : List (String × AnalyticsDoc)) (k : String)
    (d : AnalyticsDoc) :
    ((setDoc s k d).find? (fun p => decide (p.1 = k))).map Prod.snd = some d := by
  induction s with
  | nil => simp [setDoc]
  | cons p rest ih =>
    obtain ⟨k0, d0⟩ := p
    by_cases hk : k0 = k
    · subst hk
      simp [setDoc]
    · simp [setDoc, hk, List.find?, ih]

/-- `Set` with a document whose `requestId` field equals the target key
preserves consistency between keys and stored `requestId` fields. -/
theorem setDoc_consistent (s : List (String × AnalyticsDoc)) (k : String)
    (d : AnalyticsDoc) (hs : ∀ p ∈ s, (p.2).requestId = p.1)
    (hd : d.requestId = k) :
    ∀ p ∈ setDoc s k d, (p.2).requestId = p.1 := by
  induction s with
  | nil =>
    intro p hp
    simp only [setDoc, List.mem_singleton] at hp
    subst hp
    simpa using hd
  | cons q rest ih =>
    obtain ⟨k0, d0⟩ := q
    intro p hp
    by_cases hk : k0 = k
    · subst hk
      rw [setDoc, if_pos rfl] at hp
      rcases List.mem_cons.mp hp with h1 | h1
      · subst h1
        simpa using hd
      · exact hs p (List.mem_cons_of_mem _ h1)
    · rw [setDoc, if_neg hk] at hp
      rcases List.mem_cons.mp hp with h1 | h1
      · subst h1
        exact hs (k0, d0) (List.mem_cons_self _ _)
      · exact ih (fun q hq => hs q (List.mem_cons_of_mem _ hq)) p h1

/-- C2: for every payload and shared secret, `HMACValidator.Validate` succeeds
exactly when the supplied signature equals the lowercase hex encoding of
HMAC-SHA256 of the payload under the secret; every other signature, including
the empty string, is rejected with an error (the embedding is pure, so the
failure path has no side effects). -/
theorem hmacValidator_validate_correct (secret payload : List Nat) (s : String) :
    (HMACValidator.Validate ⟨secret⟩ payload s = Except.ok () ↔
      s = hexEncode (hmacSha256 secret payload)) ∧
    HMACValidator.Validate ⟨secret⟩ payload "" = Except.error "invalid signature" := by
  refine ⟨⟨fun hok => ?_, fun hs => ?_⟩, ?_⟩
  · by_contra hne
    simp [HMACValidator.Validate, hne] at hok
  · simp [HMACValidator.Validate, hs]
  · simp [HMACValidator.Validate, hexEncode_hmac_ne_empty secret payload]

/-- C8: `validateAnalyticsRecord` applies its checks in the fixed order
`requestId`, then `query`, then `timestamp`; with several invalid fields the
first failing check determines the reported field name, and a record passing
all three checks yields no error. -/
theorem validateAnalyticsRecord_first_failure (r : AnalyticsRecord) :
    (r.requestId = "" →
      validateAnalyticsRecord r = Except.error "requestId is required") ∧
    (r.requestId ≠ "" → r.query = "" →
      validateAnalyticsRecord r = Except.error "query is required") ∧
    (r.requestId ≠ "" → r.query ≠ "" → r.timestamp = 0 →
      validateAnalyticsRecord r = Except.error "timestamp is required") ∧
    (r.requestId ≠ "" → r.query ≠ "" → r.timestamp ≠ 0 →
      validateAnalyticsRecord r = Except.ok ()) := by
  refine ⟨fun h1 => ?_, fun h1 h2 => ?_, fun h1 h2 h3 => ?_, fun h1 h2 h3 => ?_⟩ <;>
    simp [validateAnalyticsRecord, *]

/-- Witness for C8: a record with all three fields invalid reports
`requestId`; fixing fields one at a time moves the report to the next check
in order; a fully valid record passes. -/
theorem validateAnalyticsRecord_first_failure_witness :
    validateAnalyticsRecord ⟨"", "", "", 0, "", 0, "", "", 0⟩
      = Except.error "requestId is required" ∧
    validateAnalyticsRecord ⟨"r", "", "", 0, "", 0, "", "", 0⟩
      = Except.error "query is required" ∧
    validateAnalyticsRecord ⟨"r", "q", "", 0, "", 0, "", "", 0⟩
      = Except.error "timestamp is required" ∧
    validateAnalyticsRecord ⟨"r", "q", "", 0, "", 0, "", "", 7⟩
      = Except.ok () :=
  ⟨(validateAnalyticsRecord_first_failure _).1 rfl,
   (validateAnalyticsRecord_first_failure _).2.1 (by decide) rfl,
   (validateAnalyticsRecord_first_failure _).2.2.1 (by decide) (by decide) rfl,
   (validateAnalyticsRecord_first_failure _).2.2.2 (by decide) (by decide) (by decide)⟩

/-- C3: for every correctly signed payload whose embedded record has an empty
`requestId`, an empty `query`, or a zero `timestamp`, `WebhookService.Process`
returns an error and the storage writer's `Write` is never invoked: the list
of writes is empty. -/
theorem process_rejects_invalid_record (secret payload : List Nat)
    (unmarshal : List Nat → Option WebhookPayload)
    (write : AnalyticsRecord → Option String) (wp : WebhookPayload)
    (hparse : unmarshal payload = some wp)
    (hbad : wp.data.requestId = "" ∨ wp.data.query = "" ∨ wp.data.timestamp = 0) :
    ∃ e, WebhookService.Process ⟨HMACValidator.Validate ⟨secret⟩, write⟩ unmarshal
        payload (hexEncode (hmacSha256 secret payload)) = (Except.error e, []) := by
  obtain ⟨e, he⟩ := validateAnalyticsRecord_err_of_invalid wp.data hbad
  refine ⟨"invalid analytics record: " ++ e, ?_⟩
  simp [WebhookService.Process, hmacValidator_accepts_expected, hparse, he]

/-- Witness for C3: a payload parsing to a record with empty `requestId`,
signed with the correct HMAC, is rejected with no write. -/
theorem process_rejects_invalid_record_witness :
    ((fun _ => some (⟨"e", 1, ⟨"", "q", "", 0, "", 0, "", "", 1⟩⟩ : WebhookPayload))
        ([] : List Nat)
      = some (⟨"e", 1, ⟨"", "q", "", 0, "", 0, "", "", 1⟩⟩ : WebhookPayload)) ∧
    ((⟨"e", 1, ⟨"", "q", "", 0, "", 0, "", "", 1⟩⟩ : WebhookPayload).data.requestId = ""
      ∨ (⟨"e", 1, ⟨"", "q", "", 0, "", 0, "", "", 1⟩⟩ : WebhookPayload).data.query = ""
      ∨ (⟨"e", 1, ⟨"", "q", "", 0, "", 0, "", "", 1⟩⟩ : WebhookPayload).data.timestamp = 0) ∧
    ∃ e, WebhookService.Process
        ⟨HMACValidator.Validate ⟨[]⟩, fun _ => none⟩
        (fun _ => some (⟨"e", 1, ⟨"", "q", "", 0, "", 0, "", "", 1⟩⟩ : WebhookPayload))
        [] (hexEncode (hmacSha256 [] [])) = (Except.error e, []) :=
  ⟨rfl, Or.inl rfl,
   process_rejects_invalid_record [] [] _ (fun _ => none) _ rfl (Or.inl rfl)⟩

/-- C4: a valid, correctly signed, well-formed payload results in exactly one
storage write; the document then stored under the record's `requestId` holds
the input record's nine fields unchanged plus a `receivedAt` equal to the
write-time clock, which is non-zero. -/
theorem process_roundtrip (secret payload : List Nat)
    (unmarshal : List Nat → Option WebhookPayload) (wp : WebhookPayload)
    (store : List (String × AnalyticsDoc)) (now : Int)
    (hparse : unmarshal payload = some wp)
    (h1 : wp.data.requestId ≠ "") (h2 : wp.data.query ≠ "")
    (h3 : wp.data.timestamp ≠ 0) (hnow : now ≠ 0) :
    WebhookService.Process ⟨HMACValidator.Validate ⟨secret⟩, fun _ => none⟩
        unmarshal payload (hexEncode (hmacSha256 secret payload))
      = (Except.ok (), [wp.data]) ∧
    ((FirestoreRepository.Write store wp.data now).find?
        (fun p => decide (p.1 = wp.data.requestId))).map Prod.snd
      = some (analyticsDoc wp.data now) ∧
    (analyticsDoc wp.data now).requestId = wp.data.requestId ∧
    (analyticsDoc wp.data now).query = wp.data.query ∧
    (analyticsDoc wp.data now).matchType = wp.data.matchType ∧
    (analyticsDoc wp.data now).matchScore = wp.data.matchScore ∧
    (analyticsDoc wp.data now).reasoning = wp.data.reasoning ∧
    (analyticsDoc wp.data now).vectorMatches = wp.data.vectorMatches ∧
    (analyticsDoc wp.data now).sessionId = wp.data.sessionId ∧
    (analyticsDoc wp.data now).week = wp.data.week ∧
    (analyticsDoc wp.data now).timestamp = wp.data.timestamp ∧
    (analyticsDoc wp.data now).receivedAt = now ∧
    (analyticsDoc wp.data now).receivedAt ≠ 0 := by
  refine ⟨?_, ?_, rfl, rfl, rfl, rfl, rfl, rfl, rfl, rfl, rfl, rfl, hnow⟩
  · simp [WebhookService.Process, hmacValidator_accepts_expected, hparse,
      validateAnalyticsRecord_ok_of_valid wp.data h1 h2 h3]
  · simpa [FirestoreRepository.Write] using
      lookupDoc_setDoc store wp.data.requestId (analyticsDoc wp.data now)

/-- Witness for C4: the sample payload, correctly signed under an empty
secret, is written exactly once and stored intact under `req_1` with
`receivedAt = 42`. -/
theorem process_roundtrip_witness :
    ((fun _ => some samplePayload) ([] : List Nat) = some samplePayload) ∧
    samplePayload.data.requestId ≠ "" ∧
    samplePayload.data.query ≠ "" ∧
    samplePayload.data.timestamp ≠ 0 ∧
    (42 : Int) ≠ 0 ∧
    WebhookService.Process ⟨HMACValidator.Validate ⟨[]⟩, fun _ => none⟩
        (fun _ => some samplePayload) [] (hexEncode (hmacSha256 [] []))
      = (Except.ok (), [samplePayload.data]) ∧
    ((FirestoreRepository.Write [] samplePayload.data 42).find?
        (fun p => decide (p.1 = samplePayload.data.requestId))).map Prod.snd
      = some (analyticsDoc samplePayload.data 42) :=
  ⟨rfl, by decide, by decide, by decide, by decide,
   (process_roundtrip [] [] (fun _ => some samplePayload) samplePayload [] 42
      rfl (by decide) (by decide) (by decide) (by decide)).1,
   (process_roundtrip [] [] (fun _ => some samplePayload) samplePayload [] 42
      rfl (by decide) (by decide) (by decide) (by decide)).2.1⟩

/-- C1 (amended): for the Firestore storage writer, two `Write`s with records
sharing a `requestId`, into a collection holding at most one document under
that key, leave exactly one stored document under the key: the full document
of the second write, never two documents and never a merge of stale fields. -/
theorem firestoreWrite_idempotent_overwrite
    (store : List (String × AnalyticsDoc)) (r1 r2 : AnalyticsRecord)
    (n1 n2 : Int) (hkey : r1.requestId = r2.requestId)
    (hstore : (docsForKey store r2.requestId).length ≤ 1) :
    docsForKey
        (FirestoreRepository.Write (FirestoreRepository.Write store r1 n1) r2 n2)
        r2.requestId
      = [(r2.requestId, analyticsDoc r2 n2)] := by
  unfold FirestoreRepository.Write
  rw [hkey]
  have h1 := docsForKey_setDoc store r2.requestId (analyticsDoc r1 n1) hstore
  have hlen : (docsForKey (setDoc store r2.requestId (analyticsDoc r1 n1))
      r2.requestId).length ≤ 1 := by
    rw [h1]
    simp
  exact docsForKey_setDoc _ r2.requestId (analyticsDoc r2 n2) hlen

/-- C1 counterexample: the cited Realtime-Database variant of the storage
writer, `FirebaseRepository.Write`, `Push`es a fresh auto-keyed child per
call, so two writes whose records share `requestId = "req_1"` leave two
stored documents, not one. -/
theorem firebaseWrite_duplicates_counterexample :
    (FirebaseRepository.Write
        (FirebaseRepository.Write [] ⟨"req_1", "q1", "", 0, "", 0, "", "", 1⟩ 5)
        ⟨"req_1", "q2", "", 0, "", 0, "", "", 2⟩ 6).length = 2 ∧
    ¬ (FirebaseRepository.Write
        (FirebaseRepository.Write [] ⟨"req_1", "q1", "", 0, "", 0, "", "", 1⟩ 5)
        ⟨"req_1", "q2", "", 0, "", 0, "", "", 2⟩ 6).length = 1 ∧
    (⟨"req_1", "q1", "", 0, "", 0, "", "", 1⟩ : AnalyticsRecord).requestId
      = (⟨"req_1", "q2", "", 0, "", 0, "", "", 2⟩ : AnalyticsRecord).requestId := by
  exact ⟨rfl, by decide, rfl⟩

/-- Witness for C1 (amended): a retried delivery of `req_1` into an empty
collection leaves exactly the second delivery's document under `req_1`. -/
theorem firestoreWrite_idempotent_overwrite_witness :
    sampleRecord.requestId = sampleRecord2.requestId ∧
    (docsForKey [] sampleRecord2.requestId).length ≤ 1 ∧
    docsForKey
        (FirestoreRepository.Write (FirestoreRepository.Write [] sampleRecord 5)
          sampleRecord2 6)
        sampleRecord2.requestId
      = [(sampleRecord2.requestId, analyticsDoc sampleRecord2 6)] :=
  ⟨rfl, by decide,
   firestoreWrite_idempotent_overwrite [] sampleRecord sampleRecord2 5 6 rfl
     (by decide)⟩

/-- C10: `FirestoreRepository.Write` preserves the invariant that every stored
document's `requestId` field equals the document key it is stored under in
the "analytics" collection: no `Write` can produce a document whose key and
`requestId` field differ. -/
theorem firestoreWrite_preserves_key_invariant
    (store : List (String × AnalyticsDoc)) (r : AnalyticsRecord) (now : Int)
    (h : storeConsistent store) :
    storeConsistent (FirestoreRepository.Write store r now) := by
  unfold FirestoreRepository.Write storeConsistent
  exact setDoc_consistent store r.requestId (analyticsDoc r now) h rfl

/-- Witness for C10: writing `sampleRecord` into the empty collection keeps
keys and stored `requestId` fields equal. -/
theorem firestoreWrite_preserves_key_invariant_witness :
    storeConsistent [] ∧
    storeConsistent (FirestoreRepository.Write [] sampleRecord 42) :=
  ⟨by simp [storeConsistent],
   firestoreWrite_preserves_key_invariant [] sampleRecord 42
     (by simp [storeConsistent])⟩

/-- C5: whenever a request reaches the processor (rate limit passed, POST
method, body read, header present) and `Process` returns an error of any
kind, the handler answers 401 with the fixed failure body; on success it
answers 200 with exactly the acknowledgment body; and the 401 response is
identical across distinct failures, so the status code alone does not reveal
which check failed. -/
theorem handler_collapses_errors
    (process : List Nat → String → Except String Unit × List AnalyticsRecord)
    (body : List Nat) (hdr : String) (hhdr : hdr ≠ "") :
    (∀ e ws, process body (trimSignatureTag hdr) = (Except.error e, ws) →
      WebhookHandler.ServeHTTP process true "POST" (Except.ok body) hdr
        = ⟨401, "Failed to process webhook\n", true,
            [(body, trimSignatureTag hdr)], ws⟩) ∧
    (∀ ws, process body (trimSignatureTag hdr) = (Except.ok (), ws) →
      WebhookHandler.ServeHTTP process true "POST" (Except.ok body) hdr
        = ⟨200, successBody, true, [(body, trimSignatureTag hdr)], ws⟩) ∧
    (∀ p1 p2 e1 e2 ws1 ws2,
      p1 body (trimSignatureTag hdr) = (Except.error e1, ws1) →
      p2 body (trimSignatureTag hdr) = (Except.error e2, ws2) →
      (WebhookHandler.ServeHTTP p1 true "POST" (Except.ok body) hdr).status
        = (WebhookHandler.ServeHTTP p2 true "POST" (Except.ok body) hdr).status ∧
      (WebhookHandler.ServeHTTP p1 true "POST" (Except.ok body) hdr).body
        = (WebhookHandler.ServeHTTP p2 true "POST" (Except.ok body) hdr).body) := by
  refine ⟨fun e ws hp => ?_, fun ws hp => ?_,
    fun p1 p2 e1 e2 ws1 ws2 hp1 hp2 => ?_⟩
  · simp [WebhookHandler.ServeHTTP, hhdr, hp]
  · simp [WebhookHandler.ServeHTTP, hhdr, hp]
  · have hb1 : WebhookHandler.ServeHTTP p1 true "POST" (Except.ok body) hdr
        = ⟨401, "Failed to process webhook\n", true,
            [(body, trimSignatureTag hdr)], ws1⟩ := by
      simp [WebhookHandler.ServeHTTP, hhdr, hp1]
    have hb2 : WebhookHandler.ServeHTTP p2 true "POST" (Except.ok body) hdr
        = ⟨401, "Failed to process webhook\n", true,
            [(body, trimSignatureTag hdr)], ws2⟩ := by
      simp [WebhookHandler.ServeHTTP, hhdr, hp2]
    rw [hb1, hb2]
    exact ⟨rfl, rfl⟩

/-- Witness for C5: with a failing processor the handler answers 401 with the
fixed body; with a succeeding one it answers 200 with the acknowledgment. -/
theorem handler_collapses_errors_witness :
    ("sha256=abc" : String) ≠ "" ∧
    WebhookHandler.ServeHTTP (fun _ _ => (Except.error "boom", [])) true "POST"
        (Except.ok []) "sha256=abc"
      = ⟨401, "Failed to process webhook\n", true,
          [([], trimSignatureTag "sha256=abc")], []⟩ ∧
    WebhookHandler.ServeHTTP (fun _ _ => (Except.ok (), [sampleRecord])) true
        "POST" (Except.ok []) "sha256=abc"
      = ⟨200, successBody, true, [([], trimSignatureTag "sha256=abc")],
          [sampleRecord]⟩ :=
  ⟨by decide,
   (handler_collapses_errors (fun _ _ => (Except.error "boom", [])) []
      "sha256=abc" (by decide)).1 "boom" [] rfl,
   (handler_collapses_errors (fun _ _ => (Except.ok (), [sampleRecord])) []
      "sha256=abc" (by decide)).2.1 [sampleRecord] rfl⟩

/-- C6 counterexample: with the token bucket exhausted, a GET request is
answered 429, not the 405 the claim requires — `function.go` consults the
rate limiter before the method check. -/
theorem rate_limit_before_method_counterexample :
    WebhookHandler.ServeHTTP (fun _ _ => (Except.ok (), [])) false "GET"
        (Except.ok []) ""
      = ⟨429, "Rate limit exceeded\n", false, [], []⟩ ∧
    (429 : Nat) ≠ 405 :=
  ⟨rfl, by decide⟩

/-- C6 (amended): in the rate-limited handler the rate check is applied first
of all: an over-limit request is answered 429 with the body never read and no
processing, whatever its method; only when the rate check passes does a
non-POST request receive 405, still before the body is read. -/
theorem rate_limit_check_first
    (process : List Nat → String → Except String Unit × List AnalyticsRecord)
    (method : String) (bodyResult : Except String (List Nat)) (hdr : String) :
    WebhookHandler.ServeHTTP process false method bodyResult hdr
      = ⟨429, "Rate limit exceeded\n", false, [], []⟩ ∧
    (method ≠ "POST" →
      WebhookHandler.ServeHTTP process true method bodyResult hdr
        = ⟨405, "Method not allowed\n", false, [], []⟩) := by
  refine ⟨rfl, fun hm => ?_⟩
  simp [WebhookHandler.ServeHTTP, hm]

/-- Witness for C6 (amended): a PUT request is answered 429 when over limit and 405
once the rate check passes. -/
theorem rate_limit_check_first_witness :
    WebhookHandler.ServeHTTP (fun _ _ => (Except.ok (), [])) false "PUT"
        (Except.ok []) "x"
      = ⟨429, "Rate limit exceeded\n", false, [], []⟩ ∧
    ("PUT" : String) ≠ "POST" ∧
    WebhookHandler.ServeHTTP (fun _ _ => (Except.ok (), [])) true "PUT"
        (Except.ok []) "x"
      = ⟨405, "Method not allowed\n", false, [], []⟩ :=
  ⟨(rate_limit_check_first (fun _ _ => (Except.ok (), [])) "PUT"
      (Except.ok []) "x").1,
   by decide,
   (rate_limit_check_first (fun _ _ => (Except.ok (), [])) "PUT"
      (Except.ok []) "x").2 (by decide)⟩

/-- C7 counterexample: the `internal/handlers` variant of `ServeHTTP`, also
cited by the claim, passes the header value `"sha256=abc"` to the processor
unchanged instead of the stripped `"abc"`. -/
theorem handlers_variant_keeps_tag_counterexample :
    (Handlers.WebhookHandler.ServeHTTP (fun _ _ => (Except.ok (), [])) "POST"
        (Except.ok []) "sha256=abc").procCalls = [([], "sha256=abc")] ∧
    ("sha256=abc" : String) ≠ "abc" := by
  exact ⟨by decide, by decide⟩

/-- Stripping the `sha256=` tag from a tagged signature yields exactly the
remainder. -/
theorem trimSignatureTag_append (s : String) :
    trimSignatureTag ("sha256=" ++ s) = s := by
  cases s with
  | mk data => rfl

/-- A tagged signature header is never the empty string. -/
theorem tagged_header_ne_empty (s : String) : ("sha256=" ++ s) ≠ "" := by
  cases s with
  | mk data =>
    intro h
    have hd : ('s' :: 'h' :: 'a' :: '2' :: '5' :: '6' :: '=' :: data : List Char)
        = [] := congrArg String.data h
    cases hd

/-- C7 (amended): for every POST whose header is `"sha256="` followed by `s`,
the `function.go` handler strips the algorithm tag and invokes the processor
with exactly `s`, so the signature validator never sees the tag; the
`internal/handlers` variant instead passes the raw header value through
unchanged. -/
theorem handler_strips_signature_tag
    (process : List Nat → String → Except String Unit × List AnalyticsRecord)
    (body : List Nat) (s : String) :
    (WebhookHandler.ServeHTTP process true "POST" (Except.ok body)
        ("sha256=" ++ s)).procCalls = [(body, s)] ∧
    (Handlers.WebhookHandler.ServeHTTP process "POST" (Except.ok body)
        ("sha256=" ++ s)).procCalls = [(body, "sha256=" ++ s)] := by
  constructor
  · rcases hp : process body s with ⟨res, ws⟩
    cases res <;>
      simp [WebhookHandler.ServeHTTP, tagged_header_ne_empty s,
        trimSignatureTag_append, hp]
  · rcases hp : process body ("sha256=" ++ s) with ⟨res, ws⟩
    cases res <;>
      simp [Handlers.WebhookHandler.ServeHTTP, tagged_header_ne_empty s, hp]

/-- C9: a POST whose `X-Webhook-Signature` header is exactly `"sha256="`
passes the missing-header check (no 400), is stripped to the empty
signature, fails HMAC validation, and is answered 401 with zero storage
writes. -/
theorem bare_tag_header_unauthorized (secret payload : List Nat)
    (unmarshal : List Nat → Option WebhookPayload)
    (write : AnalyticsRecord → Option String) :
    WebhookHandler.ServeHTTP
        (WebhookService.Process ⟨HMACValidator.Validate ⟨secret⟩, write⟩ unmarshal)
        true "POST" (Except.ok payload) "sha256="
      = ⟨401, "Failed to process webhook\n", true, [(payload, "")], []⟩ := by
  have htrim : trimSignatureTag "sha256=" = "" := rfl
  have hval : HMACValidator.Validate ⟨secret⟩ payload ""
      = Except.error "invalid signature" := by
    simp [HMACValidator.Validate, hexEncode_hmac_ne_empty secret payload]
  have hproc : WebhookService.Process ⟨HMACValidator.Validate ⟨secret⟩, write⟩
      unmarshal payload ""
      = (Except.error "webhook validation failed: invalid signature", []) := by
    simp [WebhookService.Process, hval]
  simp [WebhookHandler.ServeHTTP, htrim, hproc,
    (by decide : ("sha256=" : String) ≠ "")]
